import Mathlib

/-!
Shallow embedding of the core of `wrk-api-bench-rs` (files `src/wrk.rs`,
`src/result.rs`, `src/benchmark.rs`, `src/error.rs`).

Modelling conventions:
* Rust `f64` metric fields are represented by `ℚ` (every metric value the
  program handles is a finite decimal, hence rational; the operations the
  claims exercise — subtraction, division, multiplication by 100, comparison,
  truncating casts — are exact on these values).
* Rust `value as i64` truncation toward zero is `truncI64`.
* Instants (`OffsetDateTime`, `DateTime<Utc>`) are represented by `ℤ`
  (seconds); `time::Duration::HOUR = 3600` and so on.
* The filesystem seen by `Wrk::load` is a list of directory entries, each
  carrying the dot-separated file-name components, the modification time
  used by `sort_by_key`, and the JSON document stored in the file.
* The fixed `DATE_FORMAT` encoding of an instant into a file-name component
  is injective and parses back to exactly the instants it encodes, so a
  file-name component is modelled as either ordinary text or an encoded
  instant (`FilePart`); `OffsetDateTime::parse` succeeds exactly on the
  latter.
* Rust panics (`Option::unwrap` on `None`) are the explicit outcome
  `LoadResult.panic`.
-/

namespace WrkBench

/-- Rust `q as i64`: truncation toward zero (saturation is never reached on
the program's values). -/
def truncI64 (q : ℚ) : ℤ := q.num.tdiv (q.den : ℤ)

/-- `src/benchmark.rs`: `Benchmark { threads: u16, connections: u16,
duration: Duration }`; the duration is always a whole number of seconds
(`Duration::from_secs`). -/
structure Benchmark where
  threads : ℕ
  connections : ℕ
  durationSecs : ℕ
deriving Repr, DecidableEq

/-- Derived `Default` for `Benchmark`: all-zero fields. -/
def Benchmark.default : Benchmark := ⟨0, 0, 0⟩

/-- `src/result.rs`: `WrkResult`, one measured outcome. Field order follows
the Rust declaration. -/
structure WrkResult where
  success : Bool
  error : String
  benchmark : Benchmark
  date : ℤ
  requests : ℚ
  errors : ℚ
  successes : ℚ
  requests_sec : ℚ
  avg_latency_ms : ℚ
  min_latency_ms : ℚ
  max_latency_ms : ℚ
  stdev_latency_ms : ℚ
  transfer_mb : ℚ
  errors_connect : ℚ
  errors_read : ℚ
  errors_write : ℚ
  errors_status : ℚ
  errors_timeout : ℚ
deriving Repr, DecidableEq

/-- `impl Default for WrkResult`: `success = false`, empty error, default
benchmark, `date = Utc::now()` (the current instant is a parameter of the
model), all metrics zero. -/
def WrkResult.default (now : ℤ) : WrkResult :=
  { success := false
    error := ""
    benchmark := Benchmark.default
    date := now
    requests := 0
    errors := 0
    successes := 0
    requests_sec := 0
    avg_latency_ms := 0
    min_latency_ms := 0
    max_latency_ms := 0
    stdev_latency_ms := 0
    transfer_mb := 0
    errors_connect := 0
    errors_read := 0
    errors_write := 0
    errors_status := 0
    errors_timeout := 0 }

/-- `WrkResult::fail(error)`: the default record with the error string set. -/
def WrkResult.fail (now : ℤ) (error : String) : WrkResult :=
  { WrkResult.default now with error := error }

/-- `src/error.rs`: the kinds of `WrkError` the embedded fragment can
produce. -/
inductive WrkError where
  | exec : String → WrkError
  | history : String → WrkError
  | lua : String → WrkError
  | stats : String → WrkError
  | io : String → WrkError
  | serde : String → WrkError
  | dateParse : String → WrkError
deriving Repr, DecidableEq

/-- `src/wrk.rs`: `enum HistoryPeriod { Last, Hour, Day, Week, Month }`. -/
inductive HistoryPeriod where
  | Last
  | Hour
  | Day
  | Week
  | Month
deriving Repr, DecidableEq, Fintype

/-- `HistoryPeriod::last(&self)`: the cutoff instant of the window, in
seconds relative to `now` (`time::Duration::HOUR/DAY/WEEK`, `WEEK * 4`). -/
def HistoryPeriod.last (p : HistoryPeriod) (now : ℤ) : ℤ :=
  match p with
  | .Last => now
  | .Hour => now - 3600
  | .Day => now - 86400
  | .Week => now - 604800
  | .Month => now - 4 * 604800

/-- The five-key comparator of `Wrk::best_benchmark`: each `f64` metric is
cast `as i64` before `cmp`, chained with `Ordering::then`; the `requests`
key appears twice, exactly as in the source. -/
def cmpRuns (a b : WrkResult) : Ordering :=
  (compare (truncI64 a.requests_sec) (truncI64 b.requests_sec)).then
    ((compare (truncI64 a.successes) (truncI64 b.successes)).then
      ((compare (truncI64 a.requests) (truncI64 b.requests)).then
        ((compare (truncI64 a.requests) (truncI64 b.requests)).then
          (compare (truncI64 a.transfer_mb) (truncI64 b.transfer_mb)))))

/-- Rust `Iterator::max_by(cmp)`: `None` on an empty iterator, otherwise the
last element that compares maximal (an element replaces the current maximum
unless the current maximum is strictly greater). -/
def maxBy {α : Type} (cmp : α → α → Ordering) : List α → Option α
  | [] => none
  | x :: xs => some (xs.foldl (fun m y => if cmp m y = .gt then m else y) x)

/-- `Wrk::best_benchmark`: filter to successful runs, take `max_by` under
`cmpRuns`, error `WrkError::Stats` when nothing survives. -/
def best_benchmark (benchmarks : List WrkResult) : Except WrkError WrkResult :=
  match maxBy cmpRuns (benchmarks.filter (fun v => v.success)) with
  | some best => .ok best
  | none => .error (.stats "Unable to calculate best run in set")

/-- A JSON document, as written and read by `serde_json` (numbers carry the
exact value the program stores in them). -/
inductive Json where
  | num : ℚ → Json
  | str : String → Json
  | bool : Bool → Json
  | arr : List Json → Json
  | obj : List (String × Json) → Json

/-- Field lookup in a JSON object. -/
def Json.lookup (j : Json) (k : String) : Option Json :=
  match j with
  | .obj fields => fields.lookup k
  | _ => none

/-- Reading a JSON value as an `f64` (serde: type error otherwise). -/
def Json.asRat : Json → Except WrkError ℚ
  | .num q => .ok q
  | _ => .error (.serde "invalid type: expected a number")

/-- Reading a JSON value as an unsigned integer (serde: `u16`/`u64`). -/
def Json.asNat (j : Json) : Except WrkError ℕ :=
  match j with
  | .num q => if q.den = 1 ∧ 0 ≤ q.num then .ok q.num.toNat
              else .error (.serde "invalid type: expected an unsigned integer")
  | _ => .error (.serde "invalid type: expected an unsigned integer")

/-- Reading a JSON value as a signed integer (the stored instant). -/
def Json.asInt (j : Json) : Except WrkError ℤ :=
  match j with
  | .num q => if q.den = 1 then .ok q.num
              else .error (.serde "invalid type: expected an integer")
  | _ => .error (.serde "invalid type: expected an integer")

/-- Reading a JSON value as a boolean. -/
def Json.asBool : Json → Except WrkError Bool
  | .bool b => .ok b
  | _ => .error (.serde "invalid type: expected a boolean")

/-- Reading a JSON value as a string. -/
def Json.asStr : Json → Except WrkError String
  | .str s => .ok s
  | _ => .error (.serde "invalid type: expected a string")

/-- serde serialization of `Benchmark` (`Duration` serializes as
`{secs, nanos}`; the program only ever builds whole-second durations). -/
def encodeBenchmark (b : Benchmark) : Json :=
  .obj [("threads", .num (b.threads : ℚ)),
        ("connections", .num (b.connections : ℚ)),
        ("duration", .obj [("secs", .num (b.durationSecs : ℚ)),
                           ("nanos", .num 0)])]

/-- serde deserialization of `Benchmark`. -/
def decodeBenchmark (j : Json) : Except WrkError Benchmark :=
  match j.lookup "threads" with
  | none => .error (.serde "missing field threads")
  | some jt =>
    match jt.asNat with
    | .error e => .error e
    | .ok threads =>
      match j.lookup "connections" with
      | none => .error (.serde "missing field connections")
      | some jc =>
        match jc.asNat with
        | .error e => .error e
        | .ok connections =>
          match j.lookup "duration" with
          | none => .error (.serde "missing field duration")
          | some jd =>
            match jd.lookup "secs" with
            | none => .error (.serde "missing field secs")
            | some js =>
              match js.asNat with
              | .error e => .error e
              | .ok secs => .ok ⟨threads, connections, secs⟩

/-- serde serialization of `WrkResult`, fields in declaration order
(`DateTime<Utc>` serializes as the encoded instant). -/
def encodeWrkResult (r : WrkResult) : Json :=
  .obj [("success", .bool r.success),
        ("error", .str r.error),
        ("benchmark", encodeBenchmark r.benchmark),
        ("date", .num (r.date : ℚ)),
        ("requests", .num r.requests),
        ("errors", .num r.errors),
        ("successes", .num r.successes),
        ("requests_sec", .num r.requests_sec),
        ("avg_latency_ms", .num r.avg_latency_ms),
        ("min_latency_ms", .num r.min_latency_ms),
        ("max_latency_ms", .num r.max_latency_ms),
        ("stdev_latency_ms", .num r.stdev_latency_ms),
        ("transfer_mb", .num r.transfer_mb),
        ("errors_connect", .num r.errors_connect),
        ("errors_read", .num r.errors_read),
        ("errors_write", .num r.errors_write),
        ("errors_status", .num r.errors_status),
        ("errors_timeout", .num r.errors_timeout)]

/-- Reading a required `f64` field of a `WrkResult` object. -/
def reqRat (j : Json) (k : String) : Except WrkError ℚ :=
  match j.lookup k with
  | none => .error (.serde ("missing field " ++ k))
  | some v => v.asRat

/-- serde deserialization of `WrkResult`: `success`, `error`, `benchmark`
and `date` have `#[serde(default)]` (the `date` default is `Utc::now()`,
hence the `now` parameter); every numeric field is required. -/
def decodeWrkResult (now : ℤ) (j : Json) : Except WrkError WrkResult :=
  match (match j.lookup "success" with
         | none => .ok false
         | some v => v.asBool : Except WrkError Bool) with
  | .error e => .error e
  | .ok success =>
    match (match j.lookup "error" with
           | none => .ok ""
           | some v => v.asStr : Except WrkError String) with
    | .error e => .error e
    | .ok error =>
      match (match j.lookup "benchmark" with
             | none => .ok Benchmark.default
             | some v => decodeBenchmark v : Except WrkError Benchmark) with
      | .error e => .error e
      | .ok benchmark =>
        match (match j.lookup "date" with
               | none => .ok now
               | some v => v.asInt : Except WrkError ℤ) with
        | .error e => .error e
        | .ok date =>
          match reqRat j "requests" with
          | .error e => .error e
          | .ok requests =>
          match reqRat j "errors" with
          | .error e => .error e
          | .ok errors =>
          match reqRat j "successes" with
          | .error e => .error e
          | .ok successes =>
          match reqRat j "requests_sec" with
          | .error e => .error e
          | .ok requests_sec =>
          match reqRat j "avg_latency_ms" with
          | .error e => .error e
          | .ok avg_latency_ms =>
          match reqRat j "min_latency_ms" with
          | .error e => .error e
          | .ok min_latency_ms =>
          match reqRat j "max_latency_ms" with
          | .error e => .error e
          | .ok max_latency_ms =>
          match reqRat j "stdev_latency_ms" with
          | .error e => .error e
          | .ok stdev_latency_ms =>
          match reqRat j "transfer_mb" with
          | .error e => .error e
          | .ok transfer_mb =>
          match reqRat j "errors_connect" with
          | .error e => .error e
          | .ok errors_connect =>
          match reqRat j "errors_read" with
          | .error e => .error e
          | .ok errors_read =>
          match reqRat j "errors_write" with
          | .error e => .error e
          | .ok errors_write =>
          match reqRat j "errors_status" with
          | .error e => .error e
          | .ok errors_status =>
          match reqRat j "errors_timeout" with
          | .error e => .error e
          | .ok errors_timeout =>
            .ok { success := success, error := error, benchmark := benchmark
                  date := date, requests := requests, errors := errors
                  successes := successes, requests_sec := requests_sec
                  avg_latency_ms := avg_latency_ms
                  min_latency_ms := min_latency_ms
                  max_latency_ms := max_latency_ms
                  stdev_latency_ms := stdev_latency_ms
                  transfer_mb := transfer_mb
                  errors_connect := errors_connect
                  errors_read := errors_read
                  errors_write := errors_write
                  errors_status := errors_status
                  errors_timeout := errors_timeout }

/-- serde serialization of a `Benchmarks` vector (the content `Wrk::dump`
writes). -/
def encodeBenchmarks (rs : List WrkResult) : Json :=
  .arr (rs.map encodeWrkResult)

/-- Element-wise deserialization of a JSON array of `WrkResult`s: the
first failure aborts, exactly as serde deserializes a `Vec`. -/
def decodeWrkResults (now : ℤ) : List Json → Except WrkError (List WrkResult)
  | [] => .ok []
  | j :: rest =>
    match decodeWrkResult now j with
    | .error e => .error e
    | .ok r =>
      match decodeWrkResults now rest with
      | .error e => .error e
      | .ok rs => .ok (r :: rs)

/-- serde deserialization of a `Benchmarks` vector (what `Wrk::load`
reads from each file). -/
def decodeBenchmarks (now : ℤ) (j : Json) : Except WrkError (List WrkResult) :=
  match j with
  | .arr items => decodeWrkResults now items
  | _ => .error (.serde "invalid type: expected a sequence")

/-- `Wrk::wrk_result`: given the outcome of deserializing the wrk JSON
payload (`Err` carries the serde error text), compute the `success` flag
from `errors / 100.0 * requests` against `max_error_percentage as f64`;
deserialization failure yields `WrkResult::fail`. -/
def wrk_result (now : ℤ) (max_error_percentage : ℕ)
    (parsed : Except String WrkResult) : WrkResult :=
  match parsed with
  | .ok run =>
      let error_percentage := run.errors / 100 * run.requests
      if error_percentage < (max_error_percentage : ℚ) then
        { run with success := true }
      else
        run
  | .error e => WrkResult.fail now e

/-- One dot-separated component of a file name in the history directory:
ordinary text, or the `DATE_FORMAT` encoding of an instant (the encoding is
fixed and injective, so it is modelled by the instant it encodes). -/
inductive FilePart where
  | text : String → FilePart
  | date : ℤ → FilePart
deriving Repr, DecidableEq

/-- `OffsetDateTime::parse(component, DATE_FORMAT)`: succeeds exactly on
well-formed encodings, yielding the encoded instant. -/
def parseDate : FilePart → Except WrkError ℤ
  | .date t => .ok t
  | .text s => .error (.dateParse s)

/-- A directory entry of the history directory: the dot-separated file-name
components, the filesystem modification time (`fs::metadata .. modified`),
and the JSON document stored in the file. -/
structure DirEntry where
  fileName : List FilePart
  mtime : ℤ
  content : Json

/-- `Wrk::dump(date)`: append the file `result.<date>.json` holding the
serde serialization of the current benchmarks; the entry's modification
time is the instant the filesystem stamps on the write. -/
def dump (historyDir : List DirEntry) (date : ℤ) (mtime : ℤ)
    (benchmarks : List WrkResult) : List DirEntry :=
  historyDir ++ [⟨[.text "result", .date date, .text "json"], mtime,
                 encodeBenchmarks benchmarks⟩]

/-- Stable insertion of an entry into a list sorted by modification time
(an element goes before the first strictly later one, after equal ones it
preceded in the original list). -/
def insertByMtime (x : DirEntry) : List DirEntry → List DirEntry
  | [] => [x]
  | y :: ys => if x.mtime ≤ y.mtime then x :: y :: ys else y :: insertByMtime x ys

/-- `paths.sort_by_key(|dir| metadata.modified())`: a stable sort of the
directory entries by filesystem modification time. -/
def sortByMtime (entries : List DirEntry) : List DirEntry :=
  entries.foldr insertByMtime []

/-- Outcome of `Wrk::load`: the new `benchmarks_history` on success, a
propagated `WrkError`, or a Rust panic (`Option::unwrap` on `None`). -/
inductive LoadResult where
  | panic : LoadResult
  | err : WrkError → LoadResult
  | ok : List WrkResult → LoadResult
deriving Repr, DecidableEq

/-- The non-`Last` loop of `Wrk::load`: walk the sorted entries in order;
take the second dot-separated file-name component if any (`split('.')
.nth(1)`, skipping names without one), parse it with `DATE_FORMAT`
(failure propagates), and for every entry whose embedded instant is `≥
period.last()` deserialize the file and push its best run (both failures
propagate). -/
def loadWindow (now cutoff : ℤ) : List DirEntry → Except WrkError (List WrkResult)
  | [] => .ok []
  | e :: rest =>
    match e.fileName.get? 1 with
    | none => loadWindow now cutoff rest
    | some part =>
      match parseDate part with
      | .error er => .error er
      | .ok date =>
        if cutoff ≤ date then
          match decodeBenchmarks now e.content with
          | .error er => .error er
          | .ok benchmarks =>
            match best_benchmark benchmarks with
            | .error er => .error er
            | .ok best =>
              match loadWindow now cutoff rest with
              | .error er => .error er
              | .ok history => .ok (best :: history)
        else loadWindow now cutoff rest

/-- `Wrk::load(period)`: sort the directory entries by modification time;
for `Last`, pop the most recent file (`unwrap`: panic when the directory is
empty), deserialize it, pop the last run of the record to read its date
(`unwrap`: panic when the record is empty — the popped run is *not* put
back), and when that date equals `benchmark_date` and another file remains,
reload the next-most-recent file whole; for every other period, run the
window loop. The returned list is the new `benchmarks_history`. -/
def load (now : ℤ) (benchmark_date : Option ℤ) (period : HistoryPeriod)
    (entries : List DirEntry) : LoadResult :=
  let paths := sortByMtime entries
  if period = HistoryPeriod.Last then
    match paths.getLast? with
    | none => .panic
    | some newest =>
      let remaining := paths.dropLast
      match decodeBenchmarks now newest.content with
      | .error er => .err er
      | .ok history =>
        match history.getLast? with
        | none => .panic
        | some lastRun =>
          let history := history.dropLast
          match benchmark_date with
          | none => .ok history
          | some bd =>
            match remaining.getLast? with
            | none => .ok history
            | some previous =>
              if bd = lastRun.date then
                match decodeBenchmarks now previous.content with
                | .error er => .err er
                | .ok hPrev => .ok hPrev
              else .ok history
  else
    match loadWindow now (period.last now) paths with
    | .error er => .err er
    | .ok history => .ok history

/-- Decidable equality of `Except` outcomes (not provided by core). -/
instance {ε α : Type} [DecidableEq ε] [DecidableEq α] : DecidableEq (Except ε α) :=
  fun x y =>
    match x, y with
    | .ok a, .ok b =>
        if h : a = b then .isTrue (h ▸ rfl)
        else .isFalse (fun hh => h (Except.ok.inj hh))
    | .error a, .error b =>
        if h : a = b then .isTrue (h ▸ rfl)
        else .isFalse (fun hh => h (Except.error.inj hh))
    | .ok _, .error _ => .isFalse (fun hh => Except.noConfusion hh)
    | .error _, .ok _ => .isFalse (fun hh => Except.noConfusion hh)

/-- One execution of the external `wrk` process, abstracted at the adapter
boundary of `Wrk::bench`: the process ran and exited successfully (carrying
`None` when its stdout had no `"JSON"` marker, otherwise the outcome of
deserializing the JSON payload), or it exited abnormally (carrying the
stderr text), or it could not be run at all (carrying the spawn error
text). -/
inductive WrkExecOutcome where
  | success : Option (Except String WrkResult) → WrkExecOutcome
  | failStatus : String → WrkExecOutcome
  | execError : String → WrkExecOutcome
deriving Repr, DecidableEq

/-- The body of the `for benchmark in benchmarks` loop of `Wrk::bench`:
an abnormal exit or a spawn failure is recorded as `WrkResult::fail`
(stderr/error text), a missing `"JSON"` marker aborts with
`WrkError::Lua`, and a present payload goes through `wrk_result`. -/
def benchStep (now : ℤ) (max_error_percentage : ℕ) (o : WrkExecOutcome) :
    Except WrkError WrkResult :=
  match o with
  | .success none => .error (.lua "Wrk returned empty JSON")
  | .success (some parsed) => .ok (wrk_result now max_error_percentage parsed)
  | .failStatus stderr => .ok (WrkResult.fail now stderr)
  | .execError e => .ok (WrkResult.fail now e)

/-- `Wrk::bench` over the batch of configurations: each configuration's
execution outcome is processed in order; every recorded run gets the
invocation date stamped on it and is pushed onto `benchmarks`; a step
error aborts the whole invocation (`?`). -/
def bench (now : ℤ) (max_error_percentage : ℕ) :
    List WrkExecOutcome → Except WrkError (List WrkResult)
  | [] => .ok []
  | o :: rest =>
    match benchStep now max_error_percentage o with
    | .error er => .error er
    | .ok run =>
      match bench now max_error_percentage rest with
      | .error er => .error er
      | .ok runs => .ok ({ run with date := now } :: runs)

/-- `Variance` (`src/result.rs`): the percentage-delta record plus the two
compared runs. -/
structure Variance where
  variance : WrkResult
  new : WrkResult
  old : WrkResult
deriving Repr, DecidableEq

/-- `Variance::calculate(new, old) = (new - old) / old * 100.0`. -/
def Variance.calculate (new old : ℚ) : ℚ := (new - old) / old * 100

/-- `Variance::new(new, old)` (the name `Variance.new` is taken by the
field projection): every numeric field of the delta record is
`calculate`, its `date` is `new.date`, and the builder defaults fill
`success`/`error`/`benchmark`. -/
def varianceNew (new old : WrkResult) : Variance :=
  { variance :=
      { success := false
        error := ""
        benchmark := Benchmark.default
        date := new.date
        requests := Variance.calculate new.requests old.requests
        errors := Variance.calculate new.errors old.errors
        successes := Variance.calculate new.successes old.successes
        requests_sec := Variance.calculate new.requests_sec old.requests_sec
        avg_latency_ms := Variance.calculate new.avg_latency_ms old.avg_latency_ms
        min_latency_ms := Variance.calculate new.min_latency_ms old.min_latency_ms
        max_latency_ms := Variance.calculate new.max_latency_ms old.max_latency_ms
        stdev_latency_ms := Variance.calculate new.stdev_latency_ms old.stdev_latency_ms
        transfer_mb := Variance.calculate new.transfer_mb old.transfer_mb
        errors_connect := Variance.calculate new.errors_connect old.errors_connect
        errors_read := Variance.calculate new.errors_read old.errors_read
        errors_write := Variance.calculate new.errors_write old.errors_write
        errors_status := Variance.calculate new.errors_status old.errors_status
        errors_timeout := Variance.calculate new.errors_timeout old.errors_timeout }
    new := new
    old := old }

/-! ### Shared fixtures and helper lemmas -/

/-- The all-zero run record, dated at instant 0. -/
def zeroRun : WrkResult := WrkResult.default 0

/-- The rational 3/2, in normal form. -/
def threeHalves : ℚ := ⟨3, 2, by decide, by decide⟩

/-- A successful run with fractional throughput 1.5 requests/sec. -/
def runFrac : WrkResult := { zeroRun with success := true, requests_sec := threeHalves }

/-- A successful run with throughput 1 request/sec. -/
def runOne : WrkResult := { zeroRun with success := true, requests_sec := 1 }

/-- A successful run with throughput 2 requests/sec. -/
def runTwo : WrkResult := { zeroRun with success := true, requests_sec := 2 }

/-- The reduction step of `max_by` always yields an element of the list it
scanned (the seed or one of the scanned elements). -/
theorem foldl_pick_mem {α : Type} (cmp : α → α → Ordering) :
    ∀ (ys : List α) (z : α),
      ys.foldl (fun m y => if cmp m y = .gt then m else y) z ∈ z :: ys := by
  intro ys
  induction ys with
  | nil => intro z; simp
  | cons y ys ih =>
    intro z
    simp only [List.foldl_cons]
    rcases List.mem_cons.mp (ih (if cmp z y = .gt then z else y)) with h | h
    · by_cases hc : cmp z y = .gt
      · rw [if_pos hc] at h ⊢
        simp [h]
      · rw [if_neg hc] at h ⊢
        simp [h]
    · simp [h]

/-- `max_by` returns an element of its input. -/
theorem maxBy_mem {α : Type} (cmp : α → α → Ordering) (l : List α) (x : α)
    (h : maxBy cmp l = some x) : x ∈ l := by
  match l with
  | [] => simp [maxBy] at h
  | y :: ys =>
    simp only [maxBy, Option.some.injEq] at h
    rw [← h]
    exact foldl_pick_mem cmp ys y

/-- A singleton set of one successful run reduces to that run. -/
theorem best_benchmark_singleton (r : WrkResult) (h : r.success = true) :
    best_benchmark [r] = .ok r := by
  simp [best_benchmark, List.filter, h, maxBy]

/-! ### C1 — strict throughput dominance and selection -/

/-- C1 fails on the code: `best_benchmark` casts every metric `as i64`
before comparing, so 1.5 requests/sec and 1 request/sec compare equal, and
`max_by` resolves the tie to the *last* element scanned. Here
`runFrac.requests_sec = 3/2 > 1 = runOne.requests_sec`, both runs succeed,
yet selecting over `[runFrac, runOne]` returns `runOne`. -/
theorem C1_counterexample :
    runOne.requests_sec < runFrac.requests_sec ∧
    runFrac.success = true ∧ runOne.success = true ∧
    best_benchmark [runFrac, runOne] = .ok runOne ∧
    runOne ≠ runFrac := by decide

/-- C1 amended: for two successful runs whose `requests_per_sec` still
differ strictly *after* the `as i64` truncation the code applies, the one
with the greater truncated throughput is selected, regardless of input
order. -/
theorem C1_select_best_truncated (a b : WrkResult)
    (ha : a.success = true) (hb : b.success = true)
    (h : truncI64 b.requests_sec < truncI64 a.requests_sec) :
    best_benchmark [a, b] = .ok a ∧ best_benchmark [b, a] = .ok a := by
  have hab : cmpRuns a b = .gt := by
    simp [cmpRuns, compare_gt_iff_gt.mpr h, Ordering.then]
  have hba : cmpRuns b a = .lt := by
    simp [cmpRuns, compare_lt_iff_lt.mpr h, Ordering.then]
  constructor
  · simp [best_benchmark, List.filter, ha, hb, maxBy, hab]
  · simp [best_benchmark, List.filter, ha, hb, maxBy, hba]

/-- Witness for C1's amended theorem at throughputs 2 and 1. -/
theorem C1_select_best_truncated_witness :
    best_benchmark [runTwo, runOne] = .ok runTwo ∧
    best_benchmark [runOne, runTwo] = .ok runTwo :=
  C1_select_best_truncated runTwo runOne (by decide) (by decide) (by decide)

/-! ### C4 — the selector never returns a failed run -/

/-- C4: `best_benchmark` (1) only ever returns a run with `success = true`,
(2) fails with a `WrkError::Stats` error exactly when the input holds no
successful run (in particular on the empty input), and (3) is oblivious to
failed runs: it equals itself applied to the success-filtered input. -/
theorem C4_selector_exclusion (l : List WrkResult) :
    (∀ r, best_benchmark l = .ok r → r.success = true) ∧
    ((∃ msg, best_benchmark l = .error (.stats msg)) ↔
      ∀ r ∈ l, r.success = false) ∧
    best_benchmark l = best_benchmark (l.filter (fun v => v.success)) := by
  refine ⟨?_, ?_, ?_⟩
  · intro r h
    unfold best_benchmark at h
    cases hm : maxBy cmpRuns (l.filter (fun v => v.success)) with
    | none => rw [hm] at h; simp at h
    | some best =>
        rw [hm] at h
        simp only [Except.ok.injEq] at h
        have hmem := maxBy_mem cmpRuns _ best hm
        have hf := List.mem_filter.mp hmem
        rw [← h]
        simpa using hf.2
  · cases hf : l.filter (fun v => v.success) with
    | nil =>
      constructor
      · intro _ r hr
        have hall := List.filter_eq_nil_iff.mp hf r hr
        simpa using hall
      · intro _
        exact ⟨"Unable to calculate best run in set",
               by simp [best_benchmark, hf, maxBy]⟩
    | cons x xs =>
      constructor
      · rintro ⟨msg, h⟩
        simp [best_benchmark, hf, maxBy] at h
      · intro hall
        exfalso
        have hx : x ∈ l.filter (fun v => v.success) := by
          rw [hf]; exact List.mem_cons_self x xs
        have hm := List.mem_filter.mp hx
        have hs := hall x hm.1
        have ht : x.success = true := by simpa using hm.2
        rw [hs] at ht
        exact Bool.false_ne_true ht
  · simp [best_benchmark, List.filter_filter]

/-- Witness for C4 on the two-element mixed set `[runTwo, zeroRun]` (one
successful, one failed run). -/
theorem C4_selector_exclusion_witness :
    (∀ r, best_benchmark [runTwo, zeroRun] = .ok r → r.success = true) ∧
    ((∃ msg, best_benchmark [runTwo, zeroRun] = .error (.stats msg)) ↔
      ∀ r ∈ [runTwo, zeroRun], r.success = false) ∧
    best_benchmark [runTwo, zeroRun] =
      best_benchmark ([runTwo, zeroRun].filter (fun v => v.success)) :=
  C4_selector_exclusion [runTwo, zeroRun]

/-! ### Serialization round trips -/

/-- Deserializing the serialization of a `Benchmark` gives it back. -/
theorem decodeBenchmark_encode (b : Benchmark) :
    decodeBenchmark (encodeBenchmark b) = .ok b := by
  simp [decodeBenchmark, encodeBenchmark, Json.lookup, Json.asNat, List.lookup]

/-- Deserializing the serialization of a `WrkResult` gives it back, field
for field. -/
theorem decodeWrkResult_encode (now : ℤ) (r : WrkResult) :
    decodeWrkResult now (encodeWrkResult r) = .ok r := by
  simp [decodeWrkResult, encodeWrkResult, decodeBenchmark, encodeBenchmark,
    Json.lookup, Json.asBool, Json.asStr, Json.asRat, Json.asNat, Json.asInt,
    reqRat, List.lookup]

/-- Deserializing a serialized `Benchmarks` vector gives it back. -/
theorem decodeBenchmarks_encode (now : ℤ) (rs : List WrkResult) :
    decodeBenchmarks now (encodeBenchmarks rs) = .ok rs := by
  induction rs with
  | nil => rfl
  | cons r rest ih =>
    have ih2 : decodeWrkResults now (rest.map encodeWrkResult) = .ok rest := by
      simpa [decodeBenchmarks, encodeBenchmarks] using ih
    simp [decodeBenchmarks, encodeBenchmarks, decodeWrkResults,
      decodeWrkResult_encode, ih2]

/-! ### C7 — round-trip persistence -/

/-- C7: `Wrk::dump` stores the run sequence under `result.<t>.json`, and
deserializing the stored file (the read step of `Wrk::load`, ignoring
window filtering) reproduces the runs exactly, field for field. -/
theorem C7_roundtrip (historyDir : List DirEntry) (t mtime now : ℤ)
    (runs : List WrkResult) :
    (dump historyDir t mtime runs).getLast?.map
        (fun e => (e.fileName, decodeBenchmarks now e.content)) =
      some ([.text "result", .date t, .text "json"], .ok runs) := by
  simp [dump, decodeBenchmarks_encode]

/-! ### C2 — records are ordered by mtime, not by the embedded timestamp -/

/-- A stored record whose file name embeds instant 1 but whose filesystem
modification time is 10. -/
def entryEarlyTsLateMtime : DirEntry :=
  ⟨[.text "result", .date 1, .text "json"], 10, encodeBenchmarks [runOne]⟩

/-- A stored record whose file name embeds instant 2 but whose filesystem
modification time is 5. -/
def entryLateTsEarlyMtime : DirEntry :=
  ⟨[.text "result", .date 2, .text "json"], 5, encodeBenchmarks [runTwo]⟩

/-- C2 fails on the code: `Wrk::load` sorts the stored records by
filesystem modification time (`fs::metadata .. modified`), not by the
timestamp embedded in the file name. With embedded timestamps 1 < 2 but
modification times 10 > 5, a windowed load returns the runs in the order
`[runTwo, runOne]` — the record with the *later* embedded timestamp first —
where ordering by record identity would give `[runOne, runTwo]`. -/
theorem C2_counterexample :
    load 3600 none .Hour [entryEarlyTsLateMtime, entryLateTsEarlyMtime] =
      .ok [runTwo, runOne] ∧ runTwo ≠ runOne := by decide

/-- C2 amended: for a windowed period the loaded records are ordered by
filesystem modification time (stable sort); the timestamp embedded in the
file name is used only to filter records into the window. -/
theorem C2_mtime_ordering (now t1 t2 m1 m2 : ℤ) (r1 r2 : WrkResult)
    (h1 : r1.success = true) (h2 : r2.success = true)
    (ht1 : now - 3600 ≤ t1) (ht2 : now - 3600 ≤ t2) :
    load now none .Hour
        [⟨[.text "result", .date t1, .text "json"], m1, encodeBenchmarks [r1]⟩,
         ⟨[.text "result", .date t2, .text "json"], m2, encodeBenchmarks [r2]⟩] =
      (if m1 ≤ m2 then .ok [r1, r2] else .ok [r2, r1]) := by
  by_cases hm : m1 ≤ m2
  · simp [load, sortByMtime, insertByMtime, loadWindow, parseDate,
      HistoryPeriod.last, hm, ht1, ht2, decodeBenchmarks_encode,
      best_benchmark_singleton r1 h1, best_benchmark_singleton r2 h2]
  · simp [load, sortByMtime, insertByMtime, loadWindow, parseDate,
      HistoryPeriod.last, hm, ht1, ht2, decodeBenchmarks_encode,
      best_benchmark_singleton r1 h1, best_benchmark_singleton r2 h2]

/-- Witness for C2's amended theorem at the counterexample's input. -/
theorem C2_mtime_ordering_witness :
    load 3600 none .Hour
        [⟨[.text "result", .date 1, .text "json"], 10, encodeBenchmarks [runOne]⟩,
         ⟨[.text "result", .date 2, .text "json"], 5, encodeBenchmarks [runTwo]⟩] =
      (if (10 : ℤ) ≤ 5 then .ok [runOne, runTwo] else .ok [runTwo, runOne]) :=
  C2_mtime_ordering 3600 1 2 10 5 runOne runTwo (by decide) (by decide)
    (by decide) (by decide)

/-! ### C3 — loading the most recent record drops its last run -/

/-- C3 is right about the intended behaviour and the code breaks it: in the
`Last` branch, `Wrk::load` reads the date of the most recent record with
`history.pop().unwrap()`, which *removes* the popped run and never puts it
back. With no self-referential skip (no `benchmark_date`), a most recent
record containing `[runOne, runTwo]` (first conjunct: that is exactly what
the stored file deserializes to) is loaded as `[runOne]` — the last run is
silently dropped instead of the whole record being loaded. -/
theorem C3_code_behavior :
    decodeBenchmarks 0 (encodeBenchmarks [runOne, runTwo]) = .ok [runOne, runTwo] ∧
    load 0 none .Last
        [⟨[.text "result", .date 1, .text "json"], 10,
          encodeBenchmarks [runOne, runTwo]⟩] =
      .ok [runOne] := by decide

/-! ### C5 — the period set and the window cutoffs -/

/-- C5 fails as stated: the period enumeration of the code has exactly five
members (`Last`, `Hour`, `Day`, `Week`, `Month`) — there is no `Forever`
variant mapping to a minimum representable instant. -/
theorem C5_counterexample : Fintype.card HistoryPeriod = 5 := by decide

/-- C5 amended: the period filter is the closed five-element set
`Last | Hour | Day | Week | Month`, with `cutoff(now)` mapping `Last` to
`now`, `Hour` to `now - 1h`, `Day` to `now - 24h`, `Week` to `now - 7d`
and `Month` to `now - 28d`; windowed loading includes exactly the records
whose embedded timestamp is `≥` the cutoff — in particular a record
timestamped exactly `now - 1h` is included under `Hour` and one at
`now - 1h - 1s` is excluded. -/
theorem C5_cutoffs_and_boundary (now t mtime : ℤ) (r : WrkResult)
    (h : r.success = true) :
    (HistoryPeriod.Last.last now = now ∧
     HistoryPeriod.Hour.last now = now - 3600 ∧
     HistoryPeriod.Day.last now = now - 86400 ∧
     HistoryPeriod.Week.last now = now - 7 * 86400 ∧
     HistoryPeriod.Month.last now = now - 28 * 86400) ∧
    load now none .Hour [⟨[.text "result", .date t, .text "json"], mtime,
        encodeBenchmarks [r]⟩] =
      (if now - 3600 ≤ t then .ok [r] else .ok []) := by
  refine ⟨⟨rfl, rfl, rfl, by norm_num [HistoryPeriod.last],
           by norm_num [HistoryPeriod.last]⟩, ?_⟩
  by_cases hc : now - 3600 ≤ t
  · simp [load, sortByMtime, insertByMtime, loadWindow, parseDate,
      HistoryPeriod.last, hc, decodeBenchmarks_encode,
      best_benchmark_singleton r h]
  · simp [load, sortByMtime, insertByMtime, loadWindow, parseDate,
      HistoryPeriod.last, hc]

/-- Witness for C5's amended theorem at the inclusive boundary: a record
timestamped exactly `now - 1h` (here `now = 3600`, `t = 0`). -/
theorem C5_cutoffs_and_boundary_witness :
    (HistoryPeriod.Last.last 3600 = 3600 ∧
     HistoryPeriod.Hour.last 3600 = 3600 - 3600 ∧
     HistoryPeriod.Day.last 3600 = 3600 - 86400 ∧
     HistoryPeriod.Week.last 3600 = 3600 - 7 * 86400 ∧
     HistoryPeriod.Month.last 3600 = 3600 - 28 * 86400) ∧
    load 3600 none .Hour [⟨[.text "result", .date 0, .text "json"], 7,
        encodeBenchmarks [runOne]⟩] =
      (if (3600 : ℤ) - 3600 ≤ 0 then .ok [runOne] else .ok []) :=
  C5_cutoffs_and_boundary 3600 0 7 runOne (by decide)

/-! ### C6 — the success flag is computed from the error-rate policy -/

/-- C6: for a parsed run (whose `success` flag, absent from the external
tool's JSON, deserializes to `false`), `Wrk::wrk_result` sets `success =
true` exactly when `errors / 100.0 * requests` is strictly below
`max_error_percentage as f64`. -/
theorem C6_success_policy (now : ℤ) (mep : ℕ) (run : WrkResult)
    (h : run.success = false) :
    ((wrk_result now mep (.ok run)).success = true ↔
      run.errors / 100 * run.requests < (mep : ℚ)) := by
  by_cases hc : run.errors / 100 * run.requests < (mep : ℚ)
  · simp [wrk_result, hc]
  · simp [wrk_result, hc, h]

/-- Witness for C6 at the all-zero run and the default 2% threshold. -/
theorem C6_success_policy_witness :
    ((wrk_result 0 2 (.ok zeroRun)).success = true ↔
      zeroRun.errors / 100 * zeroRun.requests < ((2 : ℕ) : ℚ)) :=
  C6_success_policy 0 2 zeroRun (by decide)

/-! ### C8 — behaviour when no stored record exists -/

/-- C8 is right about the intended behaviour and the code breaks it: with
an empty history directory, `load` with `period = Last` panics
(`paths.pop().unwrap()` on `None`) instead of surfacing a tagged history
error, and a windowed load over an empty window returns `Ok` with an empty
history instead of an error (the `WrkError::History` variant exists but is
never produced). -/
theorem C8_code_behavior :
    load 0 none .Last [] = .panic ∧
    load 0 none .Hour [] = .ok [] := by decide

/-! ### C9 — execution failures are recorded, never fatal -/

/-- C9: an execution failure of the external process (abnormal exit with
stderr text, or a spawn error) is recorded as `WrkResult::fail`: `success =
false`, every numeric metric zero and the `error` string carrying the
(non-empty) process error text; the step never aborts `Wrk::bench`, and the
remaining configurations of the batch are still processed (the result is
the failed run consed onto whatever processing the rest produces). -/
theorem C9_exec_failure_recorded (now : ℤ) (mep : ℕ) (msg : String)
    (hmsg : msg ≠ "") (o : WrkExecOutcome)
    (ho : o = .failStatus msg ∨ o = .execError msg)
    (rest : List WrkExecOutcome) :
    bench now mep (o :: rest) =
      (bench now mep rest).map (fun runs => WrkResult.fail now msg :: runs) ∧
    (WrkResult.fail now msg).success = false ∧
    (WrkResult.fail now msg).error = msg ∧
    (WrkResult.fail now msg).error ≠ "" ∧
    (WrkResult.fail now msg).requests = 0 ∧
    (WrkResult.fail now msg).errors = 0 ∧
    (WrkResult.fail now msg).successes = 0 ∧
    (WrkResult.fail now msg).requests_sec = 0 ∧
    (WrkResult.fail now msg).avg_latency_ms = 0 ∧
    (WrkResult.fail now msg).min_latency_ms = 0 ∧
    (WrkResult.fail now msg).max_latency_ms = 0 ∧
    (WrkResult.fail now msg).stdev_latency_ms = 0 ∧
    (WrkResult.fail now msg).transfer_mb = 0 ∧
    (WrkResult.fail now msg).errors_connect = 0 ∧
    (WrkResult.fail now msg).errors_read = 0 ∧
    (WrkResult.fail now msg).errors_write = 0 ∧
    (WrkResult.fail now msg).errors_status = 0 ∧
    (WrkResult.fail now msg).errors_timeout = 0 := by
  refine ⟨?_, rfl, rfl, by simpa using hmsg, rfl, rfl, rfl, rfl, rfl, rfl,
    rfl, rfl, rfl, rfl, rfl, rfl, rfl, rfl⟩
  rcases ho with ho | ho <;> subst ho <;>
    cases hb : bench now mep rest <;>
      simp [bench, benchStep, hb, Except.map, WrkResult.fail, WrkResult.default]

/-- Witness for C9: a spawn failure with message `"boom"` followed by an
empty remainder of the batch. -/
theorem C9_exec_failure_recorded_witness :
    bench 0 2 [WrkExecOutcome.execError "boom"] =
      (bench 0 2 []).map (fun runs => WrkResult.fail 0 "boom" :: runs) ∧
    (WrkResult.fail 0 "boom").success = false ∧
    (WrkResult.fail 0 "boom").error = "boom" ∧
    (WrkResult.fail 0 "boom").error ≠ "" ∧
    (WrkResult.fail 0 "boom").requests = 0 ∧
    (WrkResult.fail 0 "boom").errors = 0 ∧
    (WrkResult.fail 0 "boom").successes = 0 ∧
    (WrkResult.fail 0 "boom").requests_sec = 0 ∧
    (WrkResult.fail 0 "boom").avg_latency_ms = 0 ∧
    (WrkResult.fail 0 "boom").min_latency_ms = 0 ∧
    (WrkResult.fail 0 "boom").max_latency_ms = 0 ∧
    (WrkResult.fail 0 "boom").stdev_latency_ms = 0 ∧
    (WrkResult.fail 0 "boom").transfer_mb = 0 ∧
    (WrkResult.fail 0 "boom").errors_connect = 0 ∧
    (WrkResult.fail 0 "boom").errors_read = 0 ∧
    (WrkResult.fail 0 "boom").errors_write = 0 ∧
    (WrkResult.fail 0 "boom").errors_status = 0 ∧
    (WrkResult.fail 0 "boom").errors_timeout = 0 :=
  C9_exec_failure_recorded 0 2 "boom" (by decide) _ (Or.inr rfl) []

/-! ### C10 — the variance formula and its date field -/

/-- C10: `Variance::new` fills every numeric metric of the delta record
with `(new - old) / old * 100` and carries `new`'s timestamp in the `date`
field. -/
theorem C10_variance_formula (new old : WrkResult) :
    (varianceNew new old).variance.date = new.date ∧
    (varianceNew new old).variance.requests =
      (new.requests - old.requests) / old.requests * 100 ∧
    (varianceNew new old).variance.errors =
      (new.errors - old.errors) / old.errors * 100 ∧
    (varianceNew new old).variance.successes =
      (new.successes - old.successes) / old.successes * 100 ∧
    (varianceNew new old).variance.requests_sec =
      (new.requests_sec - old.requests_sec) / old.requests_sec * 100 ∧
    (varianceNew new old).variance.avg_latency_ms =
      (new.avg_latency_ms - old.avg_latency_ms) / old.avg_latency_ms * 100 ∧
    (varianceNew new old).variance.min_latency_ms =
      (new.min_latency_ms - old.min_latency_ms) / old.min_latency_ms * 100 ∧
    (varianceNew new old).variance.max_latency_ms =
      (new.max_latency_ms - old.max_latency_ms) / old.max_latency_ms * 100 ∧
    (varianceNew new old).variance.stdev_latency_ms =
      (new.stdev_latency_ms - old.stdev_latency_ms) / old.stdev_latency_ms * 100 ∧
    (varianceNew new old).variance.transfer_mb =
      (new.transfer_mb - old.transfer_mb) / old.transfer_mb * 100 ∧
    (varianceNew new old).variance.errors_connect =
      (new.errors_connect - old.errors_connect) / old.errors_connect * 100 ∧
    (varianceNew new old).variance.errors_read =
      (new.errors_read - old.errors_read) / old.errors_read * 100 ∧
    (varianceNew new old).variance.errors_write =
      (new.errors_write - old.errors_write) / old.errors_write * 100 ∧
    (varianceNew new old).variance.errors_status =
      (new.errors_status - old.errors_status) / old.errors_status * 100 ∧
    (varianceNew new old).variance.errors_timeout =
      (new.errors_timeout - old.errors_timeout) / old.errors_timeout * 100 :=
  ⟨rfl, rfl, rfl, rfl, rfl, rfl, rfl, rfl, rfl, rfl, rfl, rfl, rfl, rfl, rfl⟩

end WrkBench
